import Mathlib

/-!
Verification development for the IncrementExplain repository.

The definitions below are shallow embeddings of the Python classes
UniformReservoirStorage (src/storage/uniform_reservoir_storage.py),
IncrementalSAGE (src/increment_explain/explainer/sage.py) and
MarginalImputer (src/increment_explain/imputer/marginal_imputer.py).
Random draws made by the code are passed in as explicit arguments
together with, where a distributional statement is needed, a uniform
enumeration of all possible draw outcomes.
-/

/-- A feature vector: a mapping from feature name to rational value. -/
abbrev Vec : Type := String → ℚ

section UniformReservoir

variable {X Y : Type}

/-- State of UniformReservoirStorage from src/storage/uniform_reservoir_storage.py:
capacity `size`, flag `store_targets`, lists `_storage_x` and `_storage_y`.
The class keeps no other state (in particular, no count of items seen). -/
structure UniformReservoirStorage (X Y : Type) where
  size : Nat
  store_targets : Bool
  storage_x : List X
  storage_y : List Y

/-- Constructor: both storage lists start empty. -/
def UniformReservoirStorage.mkEmpty (store_targets : Bool) (size : Nat) :
    UniformReservoirStorage X Y :=
  { size := size, store_targets := store_targets, storage_x := [], storage_y := [] }

/-- UniformReservoirStorage.update with the two random draws made explicit:
`r` models `random.randint(1, len(self._storage_x))` (so a valid draw has
`1 ≤ r ≤ storage_x.length`) and `j` models `random.randrange(self.size)`
(valid draw: `j < size`). The body mirrors the Python source: append while
below capacity, otherwise overwrite slot `j` when `r ≤ size`. -/
def UniformReservoirStorage.update (s : UniformReservoirStorage X Y)
    (x : X) (y : Y) (r j : Nat) : UniformReservoirStorage X Y :=
  if s.storage_x.length < s.size then
    { s with
      storage_x := s.storage_x ++ [x]
      storage_y := if s.store_targets then s.storage_y ++ [y] else s.storage_y }
  else
    if r ≤ s.size then
      { s with
        storage_x := s.storage_x.set j x
        storage_y := if s.store_targets then s.storage_y.set j y else s.storage_y }
    else s

/-- All states one update call can produce, enumerated uniformly over the
random draws: in the append branch no draw is consumed; in the full branch
the pair (r, j) ranges uniformly over [1, storage_x.length] x [0, size).
Each list element is one equally likely outcome, so the probability of an
event is its count divided by the list length. -/
def UniformReservoirStorage.updateDist (s : UniformReservoirStorage X Y)
    (x : X) (y : Y) : List (UniformReservoirStorage X Y) :=
  if s.storage_x.length < s.size then
    [s.update x y 0 0]
  else
    (List.range s.storage_x.length).flatMap (fun ri =>
      (List.range s.size).map (fun j => s.update x y (ri + 1) j))

/-- Feed a list of (x, y, r, j) update calls in order. -/
def UniformReservoirStorage.run (s : UniformReservoirStorage X Y)
    (ops : List (X × Y × Nat × Nat)) : UniformReservoirStorage X Y :=
  ops.foldl (fun t o => t.update o.1 o.2.1 o.2.2.1 o.2.2.2) s

end UniformReservoir

section ReservoirLemmas

variable {X Y : Type}

theorem UniformReservoirStorage.update_length_le
    (s : UniformReservoirStorage X Y) (x : X) (y : Y) (r j : Nat)
    (h : s.storage_x.length ≤ s.size) :
    (s.update x y r j).storage_x.length ≤ s.size := by
  unfold UniformReservoirStorage.update
  split
  · simpa using Nat.succ_le_of_lt (by assumption)
  · split
    · simpa using h
    · exact h

theorem UniformReservoirStorage.update_parallel
    (s : UniformReservoirStorage X Y) (x : X) (y : Y) (r j : Nat)
    (hs : s.store_targets = true)
    (h : s.storage_y.length = s.storage_x.length) :
    (s.update x y r j).storage_y.length = (s.update x y r j).storage_x.length := by
  unfold UniformReservoirStorage.update
  split
  · simp [hs, h]
  · split
    · simp [hs, h]
    · exact h

theorem UniformReservoirStorage.run_length_le
    (s : UniformReservoirStorage X Y) (ops : List (X × Y × Nat × Nat))
    (h : s.storage_x.length ≤ s.size) :
    (s.run ops).storage_x.length ≤ (s.run ops).size ∧ (s.run ops).size = s.size := by
  induction ops generalizing s with
  | nil => exact ⟨h, rfl⟩
  | cons o rest ih =>
    have hsz : (s.update o.1 o.2.1 o.2.2.1 o.2.2.2).size = s.size := by
      unfold UniformReservoirStorage.update
      split
      · rfl
      · split <;> rfl
    have h1 : (s.update o.1 o.2.1 o.2.2.1 o.2.2.2).storage_x.length ≤
        (s.update o.1 o.2.1 o.2.2.1 o.2.2.2).size := by
      rw [hsz]; exact s.update_length_le o.1 o.2.1 o.2.2.1 o.2.2.2 h
    have := ih (s.update o.1 o.2.1 o.2.2.1 o.2.2.2) h1
    exact ⟨this.1, by rw [UniformReservoirStorage.run] at *; simpa [hsz] using this.2⟩

theorem UniformReservoirStorage.run_parallel
    (s : UniformReservoirStorage X Y) (ops : List (X × Y × Nat × Nat))
    (hs : s.store_targets = true)
    (h : s.storage_y.length = s.storage_x.length) :
    (s.run ops).storage_y.length = (s.run ops).storage_x.length := by
  induction ops generalizing s with
  | nil => exact h
  | cons o rest ih =>
    have hst : (s.update o.1 o.2.1 o.2.2.1 o.2.2.2).store_targets = true := by
      unfold UniformReservoirStorage.update
      split
      · exact hs
      · split <;> exact hs
    exact ih (s.update o.1 o.2.1 o.2.2.1 o.2.2.2) hst
      (s.update_parallel o.1 o.2.1 o.2.2.1 o.2.2.2 hs h)

end ReservoirLemmas

/-- Claim C8: for every sequence of update calls on a reservoir store built
with capacity `size`, the stored feature sequence never exceeds `size`
elements after any prefix of the sequence (the prefix is itself an arbitrary
sequence, so the universal quantifier over `ops` covers every prefix), and
with `store_targets` enabled the stored-target sequence always has the same
length as the stored-feature sequence. -/
theorem C8_reservoir_bounded_and_parallel (X Y : Type) (b : Bool) (size : Nat)
    (ops : List (X × Y × Nat × Nat)) :
    ((UniformReservoirStorage.mkEmpty b size).run ops).storage_x.length ≤ size ∧
    ((UniformReservoirStorage.mkEmpty (X := X) (Y := Y) true size).run ops).storage_y.length =
      ((UniformReservoirStorage.mkEmpty (X := X) (Y := Y) true size).run ops).storage_x.length := by
  constructor
  · have h := UniformReservoirStorage.run_length_le
      (UniformReservoirStorage.mkEmpty (X := X) (Y := Y) b size) ops (by simp [UniformReservoirStorage.mkEmpty])
    have h2 : ((UniformReservoirStorage.mkEmpty (X := X) (Y := Y) b size).run ops).size = size := h.2
    exact le_of_le_of_eq h.1 h2
  · exact UniformReservoirStorage.run_parallel _ ops rfl rfl

/-- Distribution of final states after offering items 1 and then 2 to a
capacity-1 store, enumerating every possible value of the random draws. -/
def reservoirTwoItemDist : List (UniformReservoirStorage Nat Nat) :=
  ((UniformReservoirStorage.mkEmpty false 1).updateDist 1 0).flatMap
    (fun s => s.updateDist 2 0)

/-- Claim C1, evaluated on the code at a failing input: with capacity 1 and
two offered items, the claim asserts each item is present with probability
1/2, but on every possible outcome of the random draws the code keeps only
the second item; item 1 is present in 0 of the 1 equally likely outcomes,
so its presence probability is 0, not 1/2. The cause: at capacity the code
draws the admission integer from [1, occupancy] = [1, capacity] rather than
[1, seen_count], so the test r ≤ capacity always succeeds and the incoming
item always replaces a stored one. -/
theorem C1_reservoir_presence_probability_fails :
    reservoirTwoItemDist.countP (fun s => decide (1 ∈ s.storage_x)) = 0 ∧
    reservoirTwoItemDist.length = 1 ∧
    ((reservoirTwoItemDist.countP (fun s => decide (1 ∈ s.storage_x)) : ℚ) /
      (reservoirTwoItemDist.length : ℚ)) ≠ 1 / 2 := by
  refine ⟨by decide, by decide, ?_⟩
  rw [show reservoirTwoItemDist.countP (fun s => decide (1 ∈ s.storage_x)) = 0 from by decide,
    show reservoirTwoItemDist.length = 1 from by decide]
  norm_num

/-- A capacity-2 store filled with items 1 and 2 (no draws are consumed
while below capacity). -/
def reservoirFullTwo : UniformReservoirStorage Nat Nat :=
  (UniformReservoirStorage.mkEmpty false 2).run [(1, 0, 0, 0), (2, 0, 0, 0)]

/-- Claim C2, evaluated on the code at a failing input: when the full
capacity-2 store holding items 1 and 2 is offered item 3, the claim asserts
the admission integer is drawn from [1, seen_count] with seen_count = 3
counted over all items ever offered, which would leave the store unchanged
with probability 1/3. On the code, every one of the 4 equally likely draw
outcomes stores item 3 (the draw is taken from [1, occupancy] = [1, 2], so
the admission test r ≤ 2 always succeeds), and the state carries no count
of offered items at all. -/
theorem C2_reservoir_admission_draw_fails :
    (reservoirFullTwo.updateDist 3 0).all (fun t => decide (3 ∈ t.storage_x)) = true ∧
    (reservoirFullTwo.updateDist 3 0).countP (fun t => decide (3 ∉ t.storage_x)) = 0 ∧
    (reservoirFullTwo.updateDist 3 0).length = 4 := by
  refine ⟨by decide, by decide, by decide⟩

/-- Modelled from the spec: the class utils.trackers.ExponentialSmoothingTracker
imported by sage.py is not under src/. Per spec section 4.1 it holds a fixed
smoothing constant alpha, a current estimate (zero before any observation, per
the all-zero warm-up snapshot of sections 4.4 and 8), and an initialized flag:
the first update sets the estimate directly, later updates blend with weight
alpha. -/
structure ExponentialSmoothingTracker where
  alpha : ℚ
  tracked_value : ℚ
  initialized : Bool
deriving DecidableEq

def ExponentialSmoothingTracker.update (t : ExponentialSmoothingTracker) (v : ℚ) :
    ExponentialSmoothingTracker :=
  if t.initialized then
    { t with tracked_value := t.tracked_value + t.alpha * (v - t.tracked_value) }
  else
    { t with tracked_value := v, initialized := true }

def ExponentialSmoothingTracker.fresh (a : ℚ) : ExponentialSmoothingTracker :=
  { alpha := a, tracked_value := 0, initialized := false }

/-- Modelled from the spec: the class storage.sampler.ReservoirSampler imported
by sage.py is not under src/. Per spec sections 4.2 and 4.3 it maintains a
bounded store by classic algorithm R with a running seen_count (admission draw
`r` over [1, seen_count counted including the current item], slot draw `j`),
both draws passed here explicitly. -/
structure ReservoirSampler where
  size : Nat
  store_targets : Bool
  storage_x : List Vec
  storage_y : List ℚ
  seen_count : Nat

def ReservoirSampler.update (s : ReservoirSampler) (x : Vec) (y : ℚ) (r j : Nat) :
    ReservoirSampler :=
  if s.storage_x.length < s.size then
    { s with
      storage_x := s.storage_x ++ [x]
      storage_y := if s.store_targets then s.storage_y ++ [y] else s.storage_y
      seen_count := s.seen_count + 1 }
  else if r ≤ s.size then
    { s with
      storage_x := s.storage_x.set j x
      storage_y := if s.store_targets then s.storage_y.set j y else s.storage_y
      seen_count := s.seen_count + 1 }
  else { s with seen_count := s.seen_count + 1 }

/-- Modelled from the spec: sample(k) draws k items with replacement via
uniform index draws (passed explicitly in `idxs`), returning copies, and when
the store holds fewer than k items it returns as many as available. -/
def ReservoirSampler.sample (s : ReservoirSampler) (k : Nat) (idxs : List Nat) :
    List Vec :=
  (List.range (min k s.storage_x.length)).map
    (fun t => s.storage_x.getD (idxs.getD t 0) (fun _ => 0))

def ReservoirSampler.fresh (size : Nat) : ReservoirSampler :=
  { size := size, store_targets := false, storage_x := [], storage_y := [], seen_count := 0 }

/-- mae_loss from sage.py. -/
def mae_loss (y_true y_prediction : ℚ) : ℚ := |y_true - y_prediction|

/-- mse_loss from sage.py. -/
def mse_loss (y_true y_prediction : ℚ) : ℚ := (y_true - y_prediction) ^ 2

/-- State of an IncrementalSAGE instance (sage.py). The per-feature tracker
dict and loss function are function-valued fields; default_values holds, in
fixed-default mode, the dict built at construction from feature names and the
supplied list. In fixed-default mode the Python object has no sampler
attribute; here the field holds an untouched fresh sampler instead. -/
structure SageState where
  feature_names : List String
  random_state : Option Nat
  seen_samples : Nat
  sub_sample_size : Nat
  loss_function : ℚ → ℚ → ℚ
  default_values : Option (List (String × ℚ))
  sampler : ReservoirSampler
  marginal_prediction : ExponentialSmoothingTracker
  SAGE_trackers : String → ExponentialSmoothingTracker

/-- The smoothing constant 0.005 used for every tracker in sage.py. -/
def alphaDefault : ℚ := 5 / 1000

/-- IncrementalSAGE constructor (sage.py __init__), with its two failure
modes: the assert on the loss-function name, and the IndexError raised while
building the default-value dict when the supplied list is shorter than
feature_names (`default_values[i]` for `i` up to `len(feature_names) - 1`).
When the list is at least as long, `zip` pairs each feature with its value and
ignores any extras. The random_state argument is stored and never used,
mirroring the source. -/
def IncrementalSAGE.init (feature_names : List String) (loss_function : String)
    (sub_sample_size : Nat) (default_values : Option (List ℚ))
    (random_state : Option Nat) : Except String SageState :=
  if loss_function = "mae" ∨ loss_function = "mse" then
    let lossFn := if loss_function = "mae" then mae_loss else mse_loss
    match default_values with
    | none =>
        Except.ok
          { feature_names := feature_names, random_state := random_state
            seen_samples := 0, sub_sample_size := sub_sample_size
            loss_function := lossFn, default_values := none
            sampler := ReservoirSampler.fresh 300
            marginal_prediction := ExponentialSmoothingTracker.fresh alphaDefault
            SAGE_trackers := fun _ => ExponentialSmoothingTracker.fresh alphaDefault }
    | some ds =>
        if ds.length < feature_names.length then
          Except.error "IndexError: list index out of range"
        else
          Except.ok
            { feature_names := feature_names, random_state := random_state
              seen_samples := 0, sub_sample_size := sub_sample_size
              loss_function := lossFn, default_values := some (feature_names.zip ds)
              sampler := ReservoirSampler.fresh 300
              marginal_prediction := ExponentialSmoothingTracker.fresh alphaDefault
              SAGE_trackers := fun _ => ExponentialSmoothingTracker.fresh alphaDefault }
  else
    Except.error "AssertionError: Loss function must be either mae or mse."

/-- The random draws one explain_one call can consume: the feature permutation
(np.random.permutation), index draws for the baseline sample and for each
permutation step, and the reservoir admission draws of the final store update. -/
structure Oracle where
  perm : List String
  baseIdxs : List Nat
  stepIdxs : Nat → List Nat
  resR : Nat
  resJ : Nat

/-- A stored default-value dict read as a feature vector. -/
def dictToVec (d : List (String × ℚ)) : Vec := fun f => (d.lookup f).getD 0

/-- Python dict merge x_marginal = \x7b**mar, **x_S\x7d where x_S holds the
revealed features with their values from x_i: revealed keys win. -/
def mergeVec (mar : Vec) (revealed : List String) (x_i : Vec) : Vec :=
  fun f => if f ∈ revealed then x_i f else mar f

/-- The SAGE_values property of sage.py: the snapshot dict mapping each
configured feature name to its tracker value. -/
def SAGE_values (st : SageState) : List (String × ℚ) :=
  st.feature_names.map (fun f => (f, (st.SAGE_trackers f).tracked_value))

/-- One inner averaging loop of explain_one: with `m = min(sub_sample_size,
len(x_marginals))` samples, sum the model predictions on each marginal merged
with the revealed features and divide by m. Python divides `y /= k` with
k = m, a ZeroDivisionError when m = 0, modelled as `none`. -/
def featureStep (model_fn : Vec → ℚ) (x_i : Vec) (sub : Nat) (x_marginals : List Vec)
    (revealed : List String) : Option ℚ :=
  let m := min sub x_marginals.length
  if m = 0 then none
  else some ((((x_marginals.take sub).map
    (fun mar => model_fn (mergeVec mar revealed x_i))).sum) / (m : ℚ))

/-- Accumulator of the permutation sweep: the revealed feature list (x_S
keys in insertion order), the chained sample_loss, the tracker dict, and two
observation logs faithful to the calls the loop makes: the contributions fed
to SAGE_trackers in order, and the number of model_fn invocations. -/
structure SweepState where
  revealed : List String
  sample_loss : ℚ
  trackers : String → ExponentialSmoothingTracker
  contribs : List (String × ℚ)
  modelCalls : Nat

/-- The permutation sweep of explain_one: walk the remaining features with
`t` the current step index (used to pick that step's sample draws). -/
def sweepGo (model_fn : Vec → ℚ) (lossFn : ℚ → ℚ → ℚ) (x_i : Vec) (y_i : ℚ)
    (sub : Nat) (margAt : Nat → List Vec) :
    List String → Nat → SweepState → Option SweepState
  | [], _, acc => some acc
  | f :: rest, t, acc =>
    match featureStep model_fn x_i sub (margAt t) (acc.revealed ++ [f]) with
    | none => none
    | some yhat =>
      let feature_loss := lossFn y_i yhat
      let contribution := acc.sample_loss - feature_loss
      sweepGo model_fn lossFn x_i y_i sub margAt rest (t + 1)
        { revealed := acc.revealed ++ [f]
          sample_loss := feature_loss
          trackers := fun g =>
            if g = f then (acc.trackers g).update contribution else acc.trackers g
          contribs := acc.contribs ++ [(f, contribution)]
          modelCalls := acc.modelCalls + min sub (margAt t).length }

/-- The x_marginals drawn at one permutation step: the default dict repeated
sub_sample_size times in fixed-default mode, otherwise sampler.sample. -/
def stepMarginals (st : SageState) (o : Oracle) (t : Nat) : List Vec :=
  match st.default_values with
  | some d => List.replicate st.sub_sample_size (dictToVec d)
  | none => st.sampler.sample st.sub_sample_size (o.stepIdxs t)

/-- The sampler update made at the end of warm-up and post-warm-up calls,
guarded by sampling mode (`if self.default_values is None`). -/
def SageState.updateSampler (st : SageState) (x : Vec) (y : ℚ) (o : Oracle) :
    SageState :=
  match st.default_values with
  | none => { st with sampler := st.sampler.update x y o.resR o.resJ }
  | some _ => st

/-- What one explain_one call produces: the mutated estimator state, the
returned snapshot, and observation logs: how often model_fn was invoked, the
contributions fed to the per-feature trackers, the baseline sample_loss and
the final chained sample_loss of the sweep. -/
structure ExplainResult where
  state : SageState
  snapshot : List (String × ℚ)
  modelCalls : Nat
  contribs : List (String × ℚ)
  baseLoss : ℚ
  finalLoss : ℚ

/-- IncrementalSAGE.explain_one from sage.py: warm-up branch while
seen_samples < 1; otherwise draw the baseline marginal (IndexError, i.e.
`none`, on an empty sample list), update the marginal-prediction tracker,
compute the running baseline loss, sweep the drawn permutation, bump
seen_samples, feed the store in sampling mode and return the snapshot. -/
def IncrementalSAGE.explainOne (model_fn : Vec → ℚ) (st : SageState) (x_i : Vec)
    (y_i : ℚ) (o : Oracle) : Option ExplainResult :=
  if st.seen_samples < 1 then
    let st1 := { st.updateSampler x_i y_i o with seen_samples := st.seen_samples + 1 }
    some { state := st1, snapshot := SAGE_values st1, modelCalls := 0
           contribs := [], baseLoss := 0, finalLoss := 0 }
  else
    let x_marginal_list :=
      match st.default_values with
      | some d => [dictToVec d]
      | none => st.sampler.sample 1 o.baseIdxs
    match x_marginal_list with
    | [] => none
    | xm :: _ =>
      let tr1 := st.marginal_prediction.update (model_fn xm)
      let sample_loss := st.loss_function y_i tr1.tracked_value
      match sweepGo model_fn st.loss_function x_i y_i st.sub_sample_size
          (stepMarginals st o) o.perm 0
          { revealed := [], sample_loss := sample_loss, trackers := st.SAGE_trackers
            contribs := [], modelCalls := 0 } with
      | none => none
      | some sw =>
        let st1 := { st.updateSampler x_i y_i o with
                     marginal_prediction := tr1
                     SAGE_trackers := sw.trackers
                     seen_samples := st.seen_samples + 1 }
        some { state := st1, snapshot := SAGE_values st1
               modelCalls := 1 + sw.modelCalls, contribs := sw.contribs
               baseLoss := sample_loss, finalLoss := sw.sample_loss }

theorem init_ok_fields (fn : List String) (loss : String) (sub : Nat)
    (dv : Option (List ℚ)) (rs : Option Nat) (st : SageState)
    (h : IncrementalSAGE.init fn loss sub dv rs = Except.ok st) :
    st.feature_names = fn ∧ st.seen_samples = 0 ∧ st.sub_sample_size = sub ∧
    st.sampler = ReservoirSampler.fresh 300 ∧
    st.marginal_prediction = ExponentialSmoothingTracker.fresh alphaDefault ∧
    st.SAGE_trackers = (fun _ => ExponentialSmoothingTracker.fresh alphaDefault) ∧
    (st.default_values = none ↔ dv = none) := by
  unfold IncrementalSAGE.init at h
  split at h
  · cases dv with
    | none =>
        simp only [Except.ok.injEq] at h
        subst h
        simp
    | some ds =>
        simp only at h
        split at h
        · exact absurd h (by simp)
        · simp only [Except.ok.injEq] at h
          subst h
          simp
  · exact absurd h (by simp)

theorem zip_take_length {A B : Type} (l : List A) (l2 : List B) :
    l.zip (l2.take l.length) = l.zip l2 := by
  induction l generalizing l2 with
  | nil => simp
  | cons a t ih =>
    cases l2 with
    | nil => simp
    | cons b bs => simp [ih bs]

/-- Claim C6: constructing an IncrementalSAGE estimator with a loss_function
argument outside the set containing "mae" and "mse" raises during
construction itself (the assert in __init__), and construction with "mae"
or "mse" does not raise on that account (it succeeds whenever the
default_values argument, the only other failure source, is absent or at
least as long as feature_names). -/
theorem C6_loss_kind_checked_at_construction (fn : List String) (sub : Nat)
    (dv : Option (List ℚ)) (rs : Option Nat) (loss : String) :
    (¬(loss = "mae" ∨ loss = "mse") →
      IncrementalSAGE.init fn loss sub dv rs =
        Except.error "AssertionError: Loss function must be either mae or mse.") ∧
    ((loss = "mae" ∨ loss = "mse") →
      (dv = none ∨ ∃ ds, dv = some ds ∧ fn.length ≤ ds.length) →
      (IncrementalSAGE.init fn loss sub dv rs).isOk = true) := by
  constructor
  · intro h
    unfold IncrementalSAGE.init
    rw [if_neg h]
  · intro h hdv
    unfold IncrementalSAGE.init
    rw [if_pos h]
    rcases hdv with rfl | ⟨ds, rfl, hlen⟩
    · rfl
    · simp only []
      rw [if_neg (Nat.not_lt.mpr hlen)]
      rfl

/-- Witness for C6 at concrete inputs: the loss name "huber" is rejected at
construction while "mse" constructs successfully. -/
theorem C6_loss_kind_checked_at_construction_witness :
    IncrementalSAGE.init ["a"] "huber" 1 none none =
      Except.error "AssertionError: Loss function must be either mae or mse." ∧
    (IncrementalSAGE.init ["a"] "mse" 1 none none).isOk = true :=
  ⟨(C6_loss_kind_checked_at_construction ["a"] 1 none none "huber").1 (by decide),
   (C6_loss_kind_checked_at_construction ["a"] 1 none none "mse").2 (by decide)
     (Or.inl rfl)⟩

/-- Claim C7 is false on the code at this input: feature_names has length 1
and default_values has length 2 (a differing, longer length), yet
construction succeeds instead of failing with a configuration error. The
dict comprehension indexes default_values only at positions below
len(feature_names), so extra values are silently ignored. -/
theorem C7_longer_default_values_accepted :
    (["a"] : List String).length ≠ ([1, 2] : List ℚ).length ∧
    (IncrementalSAGE.init ["a"] "mse" 1 (some [1, 2]) none).isOk = true := by
  exact ⟨by decide, by decide⟩

/-- Claim C7 as amended: construction fails when default_values is shorter
than feature_names (the IndexError while building the per-feature dict);
when default_values is at least as long, construction succeeds and the
extra values beyond the first len(feature_names) are silently ignored
(the constructed state is the one built from the truncated list). -/
theorem C7_amended_default_values_shorter_only (fn : List String) (ds : List ℚ)
    (sub : Nat) (rs : Option Nat) (loss : String)
    (h : loss = "mae" ∨ loss = "mse") :
    (ds.length < fn.length →
      IncrementalSAGE.init fn loss sub (some ds) rs =
        Except.error "IndexError: list index out of range") ∧
    (fn.length ≤ ds.length →
      (IncrementalSAGE.init fn loss sub (some ds) rs).isOk = true ∧
      IncrementalSAGE.init fn loss sub (some ds) rs =
        IncrementalSAGE.init fn loss sub (some (ds.take fn.length)) rs) := by
  constructor
  · intro hlt
    unfold IncrementalSAGE.init
    rw [if_pos h]
    simp [hlt]
  · intro hle
    constructor
    · unfold IncrementalSAGE.init
      rw [if_pos h]
      simp only []
      rw [if_neg (Nat.not_lt.mpr hle)]
      rfl
    · unfold IncrementalSAGE.init
      rw [if_pos h, if_pos h]
      have htk : (ds.take fn.length).length = fn.length := by
        simp [List.length_take, Nat.min_eq_left hle]
      simp only [htk, if_neg (Nat.not_lt.mpr hle), if_neg (Nat.lt_irrefl _),
        zip_take_length]

/-- Claim C3: for every freshly constructed IncrementalSAGE estimator and
every input, the first explain_one call succeeds (does not raise), returns a
snapshot mapping every configured feature name to zero, never invokes the
model-scoring function (modelCalls = 0), leaves every tracker untouched,
and in sampling mode (default_values absent) only feeds x into the
background store (the store then holds exactly [x] and no target), while in
fixed-default mode the sampler is untouched too. -/
theorem C3_warmup_no_model_call (fn : List String) (loss : String) (sub : Nat)
    (dv : Option (List ℚ)) (rs : Option Nat) (st : SageState)
    (h : IncrementalSAGE.init fn loss sub dv rs = Except.ok st)
    (model_fn : Vec → ℚ) (x : Vec) (y : ℚ) (o : Oracle) :
    ∃ r, IncrementalSAGE.explainOne model_fn st x y o = some r ∧
      r.snapshot = fn.map (fun f => (f, (0 : ℚ))) ∧
      r.modelCalls = 0 ∧
      r.state.seen_samples = 1 ∧
      r.state.SAGE_trackers = st.SAGE_trackers ∧
      r.state.marginal_prediction = st.marginal_prediction ∧
      (dv = none → r.state.sampler.storage_x = [x] ∧ r.state.sampler.storage_y = []) ∧
      (dv ≠ none → r.state.sampler = st.sampler) := by
  obtain ⟨hfn, hseen, -, hsam, -, htr, hdv⟩ := init_ok_fields fn loss sub dv rs st h
  have hlt : st.seen_samples < 1 := by rw [hseen]; exact Nat.zero_lt_one
  have hrun : IncrementalSAGE.explainOne model_fn st x y o =
      some { state := { st.updateSampler x y o with seen_samples := st.seen_samples + 1 }
             snapshot := SAGE_values
               { st.updateSampler x y o with seen_samples := st.seen_samples + 1 }
             modelCalls := 0, contribs := [], baseLoss := 0, finalLoss := 0 } := by
    unfold IncrementalSAGE.explainOne
    rw [if_pos hlt]
  have hupfn : (st.updateSampler x y o).feature_names = fn := by
    unfold SageState.updateSampler
    cases st.default_values <;> simpa using hfn
  have huptr : (st.updateSampler x y o).SAGE_trackers = st.SAGE_trackers := by
    unfold SageState.updateSampler
    cases st.default_values <;> rfl
  have hupmp : (st.updateSampler x y o).marginal_prediction = st.marginal_prediction := by
    unfold SageState.updateSampler
    cases st.default_values <;> rfl
  refine ⟨_, hrun, ?_, rfl, ?_, huptr, hupmp, ?_, ?_⟩
  · show SAGE_values _ = _
    unfold SAGE_values
    simp only []
    rw [hupfn, huptr, htr]
    simp [ExponentialSmoothingTracker.fresh]
  · show st.seen_samples + 1 = 1
    rw [hseen]
  · intro hnone
    have hdvn : st.default_values = none := hdv.mpr hnone
    show ((st.updateSampler x y o).sampler.storage_x = [x] ∧
      (st.updateSampler x y o).sampler.storage_y = [])
    unfold SageState.updateSampler
    rw [hdvn]
    simp only [hsam]
    constructor <;> simp [ReservoirSampler.fresh, ReservoirSampler.update]
  · intro hsome
    have hdvn : st.default_values ≠ none := fun hc => hsome (hdv.mp hc)
    show (st.updateSampler x y o).sampler = st.sampler
    unfold SageState.updateSampler
    cases hdvs : st.default_values with
    | none => exact absurd hdvs hdvn
    | some d => rfl

/-- A concrete fresh sampling-mode estimator state (feature names a, b;
squared-error loss; sub-sample size 1; no default values). -/
def stWarm : SageState :=
  { feature_names := ["a", "b"], random_state := none
    seen_samples := 0, sub_sample_size := 1
    loss_function := mse_loss, default_values := none
    sampler := ReservoirSampler.fresh 300
    marginal_prediction := ExponentialSmoothingTracker.fresh alphaDefault
    SAGE_trackers := fun _ => ExponentialSmoothingTracker.fresh alphaDefault }

/-- Witness for C3 at a concrete input: constructing with feature names a, b
in sampling mode and feeding one example. -/
theorem C3_warmup_no_model_call_witness :
    IncrementalSAGE.init ["a", "b"] "mse" 1 none none = Except.ok stWarm ∧
    (∃ r, IncrementalSAGE.explainOne (fun v => v "a") stWarm (fun _ => 1) 1
        ⟨[], [], fun _ => [], 0, 0⟩ = some r ∧
      r.snapshot = (["a", "b"] : List String).map (fun f => (f, (0 : ℚ))) ∧
      r.modelCalls = 0 ∧
      r.state.seen_samples = 1 ∧
      r.state.SAGE_trackers = stWarm.SAGE_trackers ∧
      r.state.marginal_prediction = stWarm.marginal_prediction ∧
      ((none : Option (List ℚ)) = none →
        r.state.sampler.storage_x = [fun _ => 1] ∧ r.state.sampler.storage_y = []) ∧
      ((none : Option (List ℚ)) ≠ none → r.state.sampler = stWarm.sampler)) :=
  ⟨rfl, C3_warmup_no_model_call ["a", "b"] "mse" 1 none none stWarm rfl
    (fun v => v "a") (fun _ => 1) 1 ⟨[], [], fun _ => [], 0, 0⟩⟩

/-- Witness for C7 as amended, at concrete inputs: a shorter default list
fails at construction, an exactly-matching one succeeds. -/
theorem C7_amended_default_values_shorter_only_witness :
    IncrementalSAGE.init ["a", "b"] "mse" 1 (some [1]) none =
      Except.error "IndexError: list index out of range" ∧
    (IncrementalSAGE.init ["a"] "mse" 1 (some [1]) none).isOk = true :=
  ⟨(C7_amended_default_values_shorter_only ["a", "b"] [1] 1 none "mse"
      (by decide)).1 (by decide),
   ((C7_amended_default_values_shorter_only ["a"] [1] 1 none "mse"
      (by decide)).2 (by decide)).1⟩

theorem sweepGo_isSome (model_fn : Vec → ℚ) (lossFn : ℚ → ℚ → ℚ) (x_i : Vec)
    (y_i : ℚ) (sub : Nat) (margAt : Nat → List Vec)
    (hm : ∀ t, 0 < min sub (margAt t).length) :
    ∀ (perm : List String) (t : Nat) (acc : SweepState),
      (sweepGo model_fn lossFn x_i y_i sub margAt perm t acc).isSome = true := by
  intro perm
  induction perm with
  | nil => intro t acc; rfl
  | cons f rest ih =>
    intro t acc
    unfold sweepGo featureStep
    simp only []
    rw [if_neg (Nat.pos_iff_ne_zero.mp (hm t))]
    exact ih (t + 1) _

/-- Claim C5: the inner averaging step of explain_one, given the m samples
the background sampler actually returned (any m with 1 ≤ m ≤ sub_sample_size,
covering every m the spec sampler can return from a nonempty store),
averages the model predictions over exactly those m samples; and a
post-warm-up sampling-mode explain_one call on a state whose store is
nonempty and whose sub_sample_size is at least 1 returns successfully
(isSome) for every draw oracle. -/
theorem C5_tolerates_fewer_samples (model_fn : Vec → ℚ) (x_i : Vec) (sub : Nat)
    (x_marginals : List Vec) (revealed : List String)
    (h1 : 1 ≤ x_marginals.length) (h2 : x_marginals.length ≤ sub)
    (st : SageState) (y : ℚ) (o : Oracle)
    (hseen : 1 ≤ st.seen_samples) (hdv : st.default_values = none)
    (hocc : 1 ≤ st.sampler.storage_x.length) (hsub : 1 ≤ st.sub_sample_size) :
    featureStep model_fn x_i sub x_marginals revealed =
      some ((x_marginals.map (fun mar => model_fn (mergeVec mar revealed x_i))).sum /
        (x_marginals.length : ℚ)) ∧
    (IncrementalSAGE.explainOne model_fn st x_i y o).isSome = true := by
  constructor
  · unfold featureStep
    simp only []
    rw [if_neg (by omega), List.take_of_length_le h2, Nat.min_eq_right h2]
  · unfold IncrementalSAGE.explainOne
    rw [if_neg (by omega), hdv]
    have hbase : st.sampler.sample 1 o.baseIdxs =
        [st.sampler.storage_x.getD (o.baseIdxs.getD 0 0) (fun _ => 0)] := by
      unfold ReservoirSampler.sample
      rw [Nat.min_eq_left hocc]
      rfl
    rw [hbase]
    simp only []
    have hsw := sweepGo_isSome model_fn st.loss_function x_i y st.sub_sample_size
      (stepMarginals st o)
      (fun t => by
        unfold stepMarginals
        rw [hdv]
        unfold ReservoirSampler.sample
        simp only [List.length_map, List.length_range]
        omega)
      o.perm 0
      { revealed := [],
        sample_loss := st.loss_function y
          (st.marginal_prediction.update
            (model_fn (st.sampler.storage_x.getD (o.baseIdxs.getD 0 0)
              (fun _ => 0)))).tracked_value,
        trackers := st.SAGE_trackers, contribs := [], modelCalls := 0 }
    cases hsg : sweepGo model_fn st.loss_function x_i y st.sub_sample_size
        (stepMarginals st o) o.perm 0
        { revealed := [],
          sample_loss := st.loss_function y
            (st.marginal_prediction.update
              (model_fn (st.sampler.storage_x.getD (o.baseIdxs.getD 0 0)
                (fun _ => 0)))).tracked_value,
          trackers := st.SAGE_trackers, contribs := [], modelCalls := 0 } with
    | none => rw [hsg] at hsw; exact absurd hsw (by simp)
    | some sw => rfl

/-- Replay of a contribution log against a tracker dict: exactly the tracker
updates the sweep performs, in order. -/
def applyContribs (tr : String → ExponentialSmoothingTracker)
    (l : List (String × ℚ)) : String → ExponentialSmoothingTracker :=
  l.foldl (fun tr fc => fun g => if g = fc.1 then (tr g).update fc.2 else tr g) tr

theorem sweepGo_spec (model_fn : Vec → ℚ) (lossFn : ℚ → ℚ → ℚ) (x_i : Vec)
    (y_i : ℚ) (sub : Nat) (margAt : Nat → List Vec) :
    ∀ (perm : List String) (t : Nat) (acc sw : SweepState),
      sweepGo model_fn lossFn x_i y_i sub margAt perm t acc = some sw →
      ∃ delta, sw.contribs = acc.contribs ++ delta ∧
        delta.map Prod.fst = perm ∧
        (delta.map Prod.snd).sum = acc.sample_loss - sw.sample_loss ∧
        sw.trackers = applyContribs acc.trackers delta := by
  intro perm
  induction perm with
  | nil =>
    intro t acc sw h
    have hsw : acc = sw := by
      simpa [sweepGo] using h
    subst hsw
    exact ⟨[], by simp, rfl, by simp, rfl⟩
  | cons f rest ih =>
    intro t acc sw h
    unfold sweepGo at h
    simp only [] at h
    cases hfs : featureStep model_fn x_i sub (margAt t) (acc.revealed ++ [f]) with
    | none => rw [hfs] at h; exact absurd h (by simp)
    | some yhat =>
      rw [hfs] at h
      simp only [] at h
      obtain ⟨delta, hc, hfst, hsum, htr⟩ := ih (t + 1) _ sw h
      refine ⟨(f, acc.sample_loss - lossFn y_i yhat) :: delta, ?_, ?_, ?_, ?_⟩
      · simpa using hc
      · simpa using hfst
      · simp only [List.map_cons, List.sum_cons, hsum]
        ring
      · rw [htr]
        rfl

/-- Claim C9: in every post-warm-up explain_one call, the marginal
contributions fed to the per-feature trackers telescope: their sum over the
features of the drawn permutation equals the baseline loss recorded in the
result (the loss of y against the updated smoothed marginal prediction,
which the definition of explainOne binds as sample_loss) minus the final
feature_loss left after all features have been revealed; moreover the
contribution log covers exactly the drawn permutation in order, and the
resulting tracker dict is the starting dict with exactly those
contributions applied. This holds for any model function and any loss
function, in both sampling and fixed-default mode. -/
theorem C9_contributions_telescope (model_fn : Vec → ℚ) (st : SageState)
    (x : Vec) (y : ℚ) (o : Oracle) (res : ExplainResult)
    (hseen : 1 ≤ st.seen_samples)
    (h : IncrementalSAGE.explainOne model_fn st x y o = some res) :
    (res.contribs.map Prod.snd).sum = res.baseLoss - res.finalLoss ∧
    res.contribs.map Prod.fst = o.perm ∧
    res.state.SAGE_trackers = applyContribs st.SAGE_trackers res.contribs := by
  unfold IncrementalSAGE.explainOne at h
  rw [if_neg (by omega)] at h
  cases hxm : (match st.default_values with
      | some d => [dictToVec d]
      | none => st.sampler.sample 1 o.baseIdxs) with
  | nil => rw [hxm] at h; exact absurd h (by simp)
  | cons xm tl =>
    rw [hxm] at h
    simp only [] at h
    cases hsg : sweepGo model_fn st.loss_function x y st.sub_sample_size
        (stepMarginals st o) o.perm 0
        { revealed := [],
          sample_loss := st.loss_function y
            (st.marginal_prediction.update (model_fn xm)).tracked_value,
          trackers := st.SAGE_trackers, contribs := [], modelCalls := 0 } with
    | none => rw [hsg] at h; exact absurd h (by simp)
    | some sw =>
      rw [hsg] at h
      simp only [Option.some.injEq] at h
      obtain ⟨delta, hc, hfst, hsum, htr⟩ :=
        sweepGo_spec model_fn st.loss_function x y st.sub_sample_size
          (stepMarginals st o) o.perm 0 _ sw hsg
      simp only [List.nil_append] at hc
      subst h
      refine ⟨?_, ?_, ?_⟩
      · simp only [hc, hsum]
      · simp only [hc, hfst]
      · simp only [hc, htr]

/-- A concrete post-warm-up fixed-default state for the C9 witness. -/
def stDefault : SageState :=
  { feature_names := ["a", "b"], random_state := none
    seen_samples := 1, sub_sample_size := 1
    loss_function := mse_loss, default_values := some [("a", 0), ("b", 0)]
    sampler := ReservoirSampler.fresh 300
    marginal_prediction := ExponentialSmoothingTracker.fresh alphaDefault
    SAGE_trackers := fun _ => ExponentialSmoothingTracker.fresh alphaDefault }

/-- The oracle used by the C9 witness: permutation a then b. -/
def oDefault : Oracle := ⟨["a", "b"], [], fun _ => [], 0, 0⟩

/-- A placeholder result used only as the getD default below. -/
def junkResult : ExplainResult :=
  { state := stDefault, snapshot := [], modelCalls := 0
    contribs := [], baseLoss := 0, finalLoss := 0 }

/-- The result of the concrete explain_one call of the C9 witness. -/
def resDefault : ExplainResult :=
  (IncrementalSAGE.explainOne (fun v => v "a" + v "b") stDefault (fun _ => 1) 2
    oDefault).getD junkResult

/-- Witness for C9 at a concrete input: a two-feature fixed-default
estimator past warm-up, model the sum of both features. -/
theorem C9_contributions_telescope_witness :
    1 ≤ stDefault.seen_samples ∧
    IncrementalSAGE.explainOne (fun v => v "a" + v "b") stDefault (fun _ => 1) 2
      oDefault = some resDefault ∧
    ((resDefault.contribs.map Prod.snd).sum = resDefault.baseLoss - resDefault.finalLoss ∧
      resDefault.contribs.map Prod.fst = oDefault.perm ∧
      resDefault.state.SAGE_trackers = applyContribs stDefault.SAGE_trackers
        resDefault.contribs) :=
  ⟨by decide, rfl,
    C9_contributions_telescope (fun v => v "a" + v "b") stDefault (fun _ => 1) 2
      oDefault resDefault (by decide) rfl⟩

/-- One explain_one call under the global-randomness model of the source:
permutations come from np.random.permutation, the process-wide numpy
generator shared by every estimator instance, modelled as the stream `g` of
permutations with a shared position counter. A warm-up call returns before
np.random.permutation is reached and consumes no draw; a post-warm-up call
consumes one. The instance's stored random_state plays no role, as in the
source, where it is stored and never used. The other oracle draws come from
the random module and are not consumed in fixed-default mode, for which
this model is used. -/
def globalStep (model_fn : Vec → ℚ) (g : Nat → List String) (st : SageState)
    (pos : Nat) (x : Vec) (y : ℚ) : Option (SageState × Nat) :=
  if st.seen_samples < 1 then
    (IncrementalSAGE.explainOne model_fn st x y
      ⟨[], [], fun _ => [], 0, 0⟩).map (fun r => (r.state, pos))
  else
    (IncrementalSAGE.explainOne model_fn st x y
      ⟨g pos, [], fun _ => [], 0, 0⟩).map (fun r => (r.state, pos + 1))

/-- Feed a list of examples to one estimator under the shared global
permutation stream, threading the stream position. -/
def globalRun (model_fn : Vec → ℚ) (g : Nat → List String)
    (exs : List (Vec × ℚ)) (start : SageState × Nat) : Option (SageState × Nat) :=
  exs.foldl
    (fun acc xy => acc.bind (fun sp => globalStep model_fn g sp.1 sp.2 xy.1 xy.2))
    (some start)

/-- The global numpy permutation stream of the counterexample: first draw
a-b, every later draw b-a. -/
def gStream : Nat → List String := fun n => if n = 0 then ["a", "b"] else ["b", "a"]

/-- The deterministic model of the counterexample: the sum of both features. -/
def mSum : Vec → ℚ := fun v => v "a" + v "b"

/-- The constant example fed in the counterexample. -/
def xOnes : Vec := fun _ => 1

/-- The identical example sequence fed to both instances. -/
def exsTwo : List (Vec × ℚ) := [(xOnes, 2), (xOnes, 2)]

/-- The state both counterexample instances are constructed in: feature
names a, b; squared-error loss; default values 0, 0; permutation seed 7
(stored in random_state and, as in the source, never used). -/
def stGlobal : SageState :=
  { feature_names := ["a", "b"], random_state := some 7
    seen_samples := 0, sub_sample_size := 1
    loss_function := mse_loss, default_values := some [("a", 0), ("b", 0)]
    sampler := ReservoirSampler.fresh 300
    marginal_prediction := ExponentialSmoothingTracker.fresh alphaDefault
    SAGE_trackers := fun _ => ExponentialSmoothingTracker.fresh alphaDefault }

/-- Claim C4 is false on the code at this input: two estimator instances
constructed with identical arguments, default_values supplied, the same
deterministic model and the same stored permutation seed 7, fed the
identical two-example sequence inside one process. Because the permutation
randomness is the global numpy stream shared across instances (the first
instance advances it from position 0 to 1, so the second starts at 1) and
the instance-owned random_state is never used, the two runs observe
different permutations and end with different snapshots: a maps to 3 and b
to 1 for the first instance, a to 1 and b to 3 for the second. -/
theorem C4_global_randomness_breaks_determinism :
    IncrementalSAGE.init ["a", "b"] "mse" 1 (some [0, 0]) (some 7) =
      Except.ok stGlobal ∧
    (globalRun mSum gStream exsTwo (stGlobal, 0)).map (fun p => SAGE_values p.1) =
      some [("a", 3), ("b", 1)] ∧
    (globalRun mSum gStream exsTwo (stGlobal, 1)).map (fun p => SAGE_values p.1) =
      some [("a", 1), ("b", 3)] ∧
    (globalRun mSum gStream exsTwo (stGlobal, 0)).map (fun p => SAGE_values p.1) ≠
      (globalRun mSum gStream exsTwo (stGlobal, 1)).map (fun p => SAGE_values p.1) := by
  refine ⟨rfl, ?_, ?_, ?_⟩
  · norm_num +decide [globalRun, globalStep, IncrementalSAGE.explainOne,
      SageState.updateSampler, SAGE_values, stepMarginals, sweepGo, featureStep,
      mergeVec, dictToVec, mse_loss, ExponentialSmoothingTracker.update,
      ExponentialSmoothingTracker.fresh, stGlobal, mSum, gStream, xOnes, exsTwo,
      List.lookup, alphaDefault,
      show (("b" : String) == "a") = false from by decide,
      show (("a" : String) == "b") = false from by decide,
      show (("a" : String) == "a") = true from by decide,
      show (("b" : String) == "b") = true from by decide]
  · norm_num +decide [globalRun, globalStep, IncrementalSAGE.explainOne,
      SageState.updateSampler, SAGE_values, stepMarginals, sweepGo, featureStep,
      mergeVec, dictToVec, mse_loss, ExponentialSmoothingTracker.update,
      ExponentialSmoothingTracker.fresh, stGlobal, mSum, gStream, xOnes, exsTwo,
      List.lookup, alphaDefault,
      show (("b" : String) == "a") = false from by decide,
      show (("a" : String) == "b") = false from by decide,
      show (("a" : String) == "a") = true from by decide,
      show (("b" : String) == "b") = true from by decide]
  · norm_num +decide [globalRun, globalStep, IncrementalSAGE.explainOne,
      SageState.updateSampler, SAGE_values, stepMarginals, sweepGo, featureStep,
      mergeVec, dictToVec, mse_loss, ExponentialSmoothingTracker.update,
      ExponentialSmoothingTracker.fresh, stGlobal, mSum, gStream, xOnes, exsTwo,
      List.lookup, alphaDefault,
      show (("b" : String) == "a") = false from by decide,
      show (("a" : String) == "b") = false from by decide,
      show (("a" : String) == "a") = true from by decide,
      show (("b" : String) == "b") = true from by decide]

/-- Snapshot after every example: the list of returned SAGE snapshots of a
run in which each call's draws are given explicitly. -/
def snapshotTrace (model_fn : Vec → ℚ) :
    SageState → List (Vec × ℚ × Oracle) → Option (List (List (String × ℚ)))
  | _, [] => some []
  | st, (x, y, o) :: rest =>
    match IncrementalSAGE.explainOne model_fn st x y o with
    | none => none
    | some r => (snapshotTrace model_fn r.state rest).map (fun l => r.snapshot :: l)

/-- Claim C4 as amended: with default_values supplied, the same model and
identical per-call draw sequences (in particular identical permutation
draws, e.g. when the global generator is reseeded identically before each
run), two instances constructed with the same arguments and fed the
identical example sequence produce bit-for-bit identical snapshots after
every example. As written the claim fails (see the counterexample) because
the permutation randomness comes from the numpy global generator shared
across instances and the estimator-owned random_state argument is unused. -/
theorem C4_amended_identical_draws_determinism (fn : List String) (loss : String)
    (sub : Nat) (dv : Option (List ℚ)) (rs : Option Nat) (model_fn : Vec → ℚ)
    (ins : List (Vec × ℚ × Oracle)) (stA stB : SageState)
    (hA : IncrementalSAGE.init fn loss sub dv rs = Except.ok stA)
    (hB : IncrementalSAGE.init fn loss sub dv rs = Except.ok stB) :
    snapshotTrace model_fn stA ins = snapshotTrace model_fn stB ins := by
  rw [hA] at hB
  simp only [Except.ok.injEq] at hB
  rw [hB]

/-- Witness for the amended C4 at a concrete input: two instances built by
the same constructor call, fed one example with the same draws. -/
theorem C4_amended_identical_draws_determinism_witness :
    IncrementalSAGE.init ["a", "b"] "mse" 1 (some [0, 0]) (some 7) =
      Except.ok stGlobal ∧
    snapshotTrace mSum stGlobal [(xOnes, 2, oDefault)] =
      snapshotTrace mSum stGlobal [(xOnes, 2, oDefault)] :=
  ⟨rfl, C4_amended_identical_draws_determinism ["a", "b"] "mse" 1 (some [0, 0])
    (some 7) mSum [(xOnes, 2, oDefault)] stGlobal stGlobal rfl rfl⟩

/-- A concrete post-warm-up sampling-mode state: one example stored, one
example seen. -/
def stSampling : SageState :=
  { feature_names := ["a", "b"], random_state := none
    seen_samples := 1, sub_sample_size := 2
    loss_function := mse_loss, default_values := none
    sampler := { size := 300, store_targets := false
                 storage_x := [fun _ => 1], storage_y := [], seen_count := 1 }
    marginal_prediction := ExponentialSmoothingTracker.fresh alphaDefault
    SAGE_trackers := fun _ => ExponentialSmoothingTracker.fresh alphaDefault }

/-- Witness for C5 at concrete inputs: one returned sample against a
configured sub-sample size of 2, and a full explain_one call on a concrete
post-warm-up state whose store holds one example. -/
theorem C5_tolerates_fewer_samples_witness :
    (1 ≤ ([fun _ => (5 : ℚ)] : List Vec).length ∧
      ([fun _ => (5 : ℚ)] : List Vec).length ≤ 2 ∧
      1 ≤ stSampling.seen_samples ∧ stSampling.default_values = none ∧
      1 ≤ stSampling.sampler.storage_x.length ∧ 1 ≤ stSampling.sub_sample_size) ∧
    featureStep (fun v => v "a") (fun _ => 3) 2 [fun _ => (5 : ℚ)] ["a"] =
      some ((([fun _ => (5 : ℚ)] : List Vec).map
        (fun mar => (fun (v : Vec) => v "a") (mergeVec mar ["a"] (fun _ => 3)))).sum /
        ((([fun _ => (5 : ℚ)] : List Vec).length : ℚ))) ∧
    (IncrementalSAGE.explainOne (fun v => v "a") stSampling (fun _ => 3) 1
      ⟨["a", "b"], [0], fun _ => [0], 1, 0⟩).isSome = true := by
  refine ⟨⟨by decide, by decide, by decide, rfl, by decide, by decide⟩, ?_, ?_⟩
  · exact (C5_tolerates_fewer_samples (fun v => v "a") (fun _ => 3) 2
      [fun _ => (5 : ℚ)] ["a"] (by decide) (by decide) stSampling 1
      ⟨["a", "b"], [0], fun _ => [0], 1, 0⟩ (by decide) rfl (by decide) (by decide)).1
  · exact (C5_tolerates_fewer_samples (fun v => v "a") (fun _ => 3) 2
      [fun _ => (5 : ℚ)] ["a"] (by decide) (by decide) stSampling 1
      ⟨["a", "b"], [0], fun _ => [0], 1, 0⟩ (by decide) rfl (by decide) (by decide)).2

/-- A heap of Python dict objects for the imputer embedding: the address of
a dict is its index in `cells`. Python aliasing is explicit: reading through
an address sees later writes through the same address, and .copy() becomes
an allocation of a fresh cell. -/
structure Mem where
  cells : List Vec

/-- Dereference an address (the default vector is only reached through an
invalid address). -/
def Mem.read (m : Mem) (a : Nat) : Vec := m.cells.getD a (fun _ => 0)

/-- Allocate a fresh dict holding `v`, returning its address. -/
def Mem.alloc (m : Mem) (v : Vec) : Mem × Nat :=
  (⟨m.cells ++ [v]⟩, m.cells.length)

/-- Write one key of the dict at address `a` in place. -/
def Mem.write (m : Mem) (a : Nat) (f : String) (v : ℚ) : Mem :=
  ⟨m.cells.set a (fun g => if g = f then v else m.read a g)⟩

/-- MarginalImputer state (marginal_imputer.py): the sampling strategy
string and the storage object, whose _storage_x list holds references to
the stored feature dicts. -/
structure MarginalImputer where
  sampling_strategy : String
  storage_addrs : List Nat

/-- MarginalImputer._sample_marginals: draw one stored instance (index draw
`ridx`), copy it (a fresh allocation), and project the copy onto the
feature subset, building a fresh plain mapping. -/
def MarginalImputer.sample_marginals (m : Mem) (features : List Nat)
    (feature_subset : List String) (ridx : Nat) : Mem × List (String × ℚ) :=
  let p := m.alloc (m.read (features.getD ridx 0))
  (p.1, feature_subset.map (fun f => (f, p.1.read p.2 f)))

/-- MarginalImputer._sample_product_marginals: for each subset feature in
turn, draw a fresh stored instance (per-feature index draws `ridxs`), copy
it, and take that one feature's value from the copy. -/
def sampleProductGo (features : List Nat) (ridxs : Nat → Nat) :
    List String → Nat → Mem → Mem × List (String × ℚ)
  | [], _, m => (m, [])
  | f :: rest, t, m =>
    let p := m.alloc (m.read (features.getD (ridxs t) 0))
    let q := sampleProductGo features ridxs rest (t + 1) p.1
    (q.1, (f, p.1.read p.2 f) :: q.2)

/-- MarginalImputer._sample: fetch the stored feature references via
get_data and dispatch on the sampling strategy. -/
def MarginalImputer.sampleOnce (imp : MarginalImputer) (m : Mem)
    (feature_subset : List String) (jd : Nat) (pd : Nat → Nat) :
    Mem × List (String × ℚ) :=
  if imp.sampling_strategy = "joint" then
    MarginalImputer.sample_marginals m imp.storage_addrs feature_subset jd
  else
    sampleProductGo imp.storage_addrs pd feature_subset 0 m

/-- The loop body of MarginalImputer.impute, iterated n times with `t` the
iteration index selecting that iteration's draws: sample, copy x_i into a
fresh dict, overwrite the subset keys of the copy in place, score the model
on the copy. The model attribute the Python method reads is passed as the
`model` parameter. -/
def MarginalImputer.imputeGo (imp : MarginalImputer) (model : Vec → ℚ)
    (feature_subset : List String) (x_i_addr : Nat) (jd : Nat → Nat)
    (pd : Nat → Nat → Nat) : Nat → Nat → Mem → Mem × List ℚ
  | 0, _, m => (m, [])
  | Nat.succ n, t, m =>
    let s := imp.sampleOnce m feature_subset (jd t) (pd t)
    let p := s.1.alloc (s.1.read x_i_addr)
    let m3 := feature_subset.foldl
      (fun mm key => mm.write p.2 key ((s.2.lookup key).getD 0)) p.1
    let pr := model (m3.read p.2)
    let q := imp.imputeGo model feature_subset x_i_addr jd pd n (t + 1) m3
    (q.1, pr :: q.2)

/-- MarginalImputer.impute(feature_subset, x_i, n_samples): run the loop
from iteration 0, returning the final heap and the prediction list. -/
def MarginalImputer.impute (imp : MarginalImputer) (model : Vec → ℚ)
    (feature_subset : List String) (x_i_addr : Nat) (n_samples : Nat)
    (jd : Nat → Nat) (pd : Nat → Nat → Nat) (m : Mem) : Mem × List ℚ :=
  imp.imputeGo model feature_subset x_i_addr jd pd n_samples 0 m

/-- Heap evolution that leaves every initially allocated dict untouched:
the heap only grows and old addresses read the same. -/
def Mem.preserves (m m2 : Mem) : Prop :=
  m.cells.length ≤ m2.cells.length ∧
  ∀ a, a < m.cells.length → m2.read a = m.read a

theorem Mem.preserves_refl (m : Mem) : m.preserves m :=
  ⟨Nat.le_refl _, fun _ _ => rfl⟩

theorem Mem.preserves_trans {m1 m2 m3 : Mem} (h1 : m1.preserves m2)
    (h2 : m2.preserves m3) : m1.preserves m3 :=
  ⟨Nat.le_trans h1.1 h2.1,
   fun a ha => by rw [h2.2 a (Nat.lt_of_lt_of_le ha h1.1), h1.2 a ha]⟩

theorem Mem.alloc_preserves (m : Mem) (v : Vec) : m.preserves (m.alloc v).1 := by
  refine ⟨by simp [Mem.alloc], fun a ha => ?_⟩
  unfold Mem.read Mem.alloc
  simp only []
  rw [List.getD_eq_getElem?_getD, List.getD_eq_getElem?_getD,
    List.getElem?_append_left ha]

theorem Mem.write_preserves_of_le {m0 : Mem} (m : Mem) (a : Nat) (f : String)
    (v : ℚ) (hm : m0.preserves m) (ha : m0.cells.length ≤ a) :
    m0.preserves (m.write a f v) := by
  refine ⟨?_, fun b hb => ?_⟩
  · calc m0.cells.length ≤ m.cells.length := hm.1
      _ = (m.write a f v).cells.length := by simp [Mem.write]
  · have hne : a ≠ b := fun hc => absurd (hc ▸ Nat.lt_of_lt_of_le hb ha) (Nat.lt_irrefl _)
    have : (m.write a f v).read b = m.read b := by
      unfold Mem.read Mem.write
      simp only []
      rw [List.getD_eq_getElem?_getD, List.getD_eq_getElem?_getD,
        List.getElem?_set_ne hne]
    rw [this, hm.2 b hb]

theorem sampleProductGo_preserves (features : List Nat) (ridxs : Nat → Nat) :
    ∀ (subset : List String) (t : Nat) (m : Mem),
      m.preserves (sampleProductGo features ridxs subset t m).1 := by
  intro subset
  induction subset with
  | nil => intro t m; exact Mem.preserves_refl m
  | cons f rest ih =>
    intro t m
    exact Mem.preserves_trans (m.alloc_preserves _) (ih (t + 1) _)

theorem sampleOnce_preserves (imp : MarginalImputer) (m : Mem)
    (feature_subset : List String) (jd : Nat) (pd : Nat → Nat) :
    m.preserves (imp.sampleOnce m feature_subset jd pd).1 := by
  unfold MarginalImputer.sampleOnce MarginalImputer.sample_marginals
  split
  · exact m.alloc_preserves _
  · exact sampleProductGo_preserves _ _ _ _ m

theorem writeFold_preserves {m0 : Mem} (a : Nat) (sv : List (String × ℚ))
    (ha : m0.cells.length ≤ a) :
    ∀ (subset : List String) (m : Mem), m0.preserves m →
      m0.preserves (subset.foldl
        (fun mm key => mm.write a key ((sv.lookup key).getD 0)) m) := by
  intro subset
  induction subset with
  | nil => intro m hm; exact hm
  | cons k rest ih =>
    intro m hm
    exact ih _ (Mem.write_preserves_of_le m a k _ hm ha)

theorem imputeGo_preserves (imp : MarginalImputer) (model : Vec → ℚ)
    (feature_subset : List String) (x_i_addr : Nat) (jd : Nat → Nat)
    (pd : Nat → Nat → Nat) :
    ∀ (n t : Nat) (m : Mem),
      m.preserves (imp.imputeGo model feature_subset x_i_addr jd pd n t m).1 := by
  intro n
  induction n with
  | zero => intro t m; exact Mem.preserves_refl m
  | succ n ih =>
    intro t m
    unfold MarginalImputer.imputeGo
    simp only []
    refine Mem.preserves_trans (Mem.preserves_trans
      (sampleOnce_preserves imp m feature_subset (jd t) (pd t)) ?_) (ih (t + 1) _)
    exact writeFold_preserves _ _ (Nat.le_refl _) feature_subset _
      (Mem.alloc_preserves _ _)

/-- Claim C10: a call to MarginalImputer.impute leaves the caller's input
mapping x_i and every feature vector held inside the storage object
unchanged: every dict allocated before the call reads exactly as before,
because imputation copies x_i and the sampled stored instances into fresh
allocations and only ever writes through the fresh addresses. Stated for
valid addresses (x_i and the storage entries are existing dicts), any
strategy, any draws, any model and any iteration count. -/
theorem C10_impute_mutates_nothing_preexisting (imp : MarginalImputer)
    (model : Vec → ℚ) (feature_subset : List String) (x_i_addr n : Nat)
    (jd : Nat → Nat) (pd : Nat → Nat → Nat) (m : Mem)
    (hx : x_i_addr < m.cells.length) :
    (imp.impute model feature_subset x_i_addr n jd pd m).1.read x_i_addr =
      m.read x_i_addr ∧
    ∀ b ∈ imp.storage_addrs, b < m.cells.length →
      (imp.impute model feature_subset x_i_addr n jd pd m).1.read b = m.read b := by
  have h := imputeGo_preserves imp model feature_subset x_i_addr jd pd n 0 m
  exact ⟨h.2 _ hx, fun b _ hb => h.2 _ hb⟩

/-- Witness for C10 at a concrete input: one stored dict at address 0, the
caller's x_i at address 1, one joint-strategy imputation round. -/
theorem C10_impute_mutates_nothing_preexisting_witness :
    (1 < (Mem.mk [fun _ => (1 : ℚ), fun _ => 2]).cells.length) ∧
    ((MarginalImputer.mk "joint" [0]).impute (fun v => v "a") ["a"] 1 1
        (fun _ => 0) (fun _ _ => 0) (Mem.mk [fun _ => 1, fun _ => 2])).1.read 1 =
      (Mem.mk [fun _ => (1 : ℚ), fun _ => 2]).read 1 ∧
    ∀ b ∈ (MarginalImputer.mk "joint" [0]).storage_addrs,
      b < (Mem.mk [fun _ => (1 : ℚ), fun _ => 2]).cells.length →
      ((MarginalImputer.mk "joint" [0]).impute (fun v => v "a") ["a"] 1 1
          (fun _ => 0) (fun _ _ => 0) (Mem.mk [fun _ => 1, fun _ => 2])).1.read b =
        (Mem.mk [fun _ => (1 : ℚ), fun _ => 2]).read b := by
  refine ⟨by decide, ?_, ?_⟩
  · exact (C10_impute_mutates_nothing_preexisting (MarginalImputer.mk "joint" [0])
      (fun v => v "a") ["a"] 1 1 (fun _ => 0) (fun _ _ => 0)
      (Mem.mk [fun _ => 1, fun _ => 2]) (by decide)).1
  · exact (C10_impute_mutates_nothing_preexisting (MarginalImputer.mk "joint" [0])
      (fun v => v "a") ["a"] 1 1 (fun _ => 0) (fun _ _ => 0)
      (Mem.mk [fun _ => 1, fun _ => 2]) (by decide)).2
